import Mathlib

/-!
Shallow embedding of the offline cache agent (`src/sw.js`) of the portfolio
website.  Cache storage is modelled as an ordered association list of named
partitions (the order is the creation order, which is the order the browser
enumerates and searches caches in).  A stored response snapshot keeps the
fields the service worker inspects: `status`, `type` and a body.  Network
behaviour is passed in explicitly: a fetch either rejects (`failure`) or
resolves, possibly with a missing value (the code guards `!response`), and
for the timed paths an explicit settle time is raced against the timer of
`fetchWithTimeout`.
-/

/-- A response snapshot: the fields of a `Response` the service worker reads. -/
structure Response where
  status : Nat
  rtype : String
  body : String
deriving DecidableEq

/-- A cache partition: ordered key-value pairs from URL to response. -/
abbrev Partition := List (String × Response)

/-- The whole cache storage: named partitions in creation order. -/
abbrev CacheStorage := List (String × Partition)

/-- `CACHE_NAME` from sw.js line 6: the primary partition. -/
def CACHE_NAME : String := "portfolio-v2.0.0"

/-- `OFFLINE_CACHE` from sw.js line 7. -/
def OFFLINE_CACHE : String := "offline-cache-v1"

/-- `IMAGE_CACHE` from sw.js line 8. -/
def IMAGE_CACHE : String := "image-cache-v1"

/-- `OFFLINE_URL` from sw.js line 38: key of the offline fallback page. -/
def OFFLINE_URL : String := "/offline.html"

/-- The three current partition names. -/
def threeNames : List String := [CACHE_NAME, IMAGE_CACHE, OFFLINE_CACHE]

/-- JavaScript `String.prototype.startsWith` on our string model. -/
def strStarts (s p : String) : Bool := p.data.isPrefixOf s.data

/-- JavaScript `String.prototype.includes` (substring test). -/
def strIncludes (s sub : String) : Bool :=
  (List.range (s.data.length + 1)).any (fun i => sub.data.isPrefixOf (s.data.drop i))

/-- Lower-casing of an ASCII character, for the case-insensitive image regex. -/
def toLowerChar (c : Char) : Char :=
  if 65 ≤ c.toNat ∧ c.toNat ≤ 90 then Char.ofNat (c.toNat + 32) else c

/-- Does the character list end with the given suffix list. -/
def listEndsWith (s p : List Char) : Bool := p.isSuffixOf s

/-- `match(request)` inside one partition: first entry for the URL. -/
def partitionMatch : Partition → String → Option Response
  | [], _ => none
  | e :: rest, url => if e.1 == url then some e.2 else partitionMatch rest url

/-- Global `caches.match(url)`: searches every partition in storage order. -/
def cachesMatch : CacheStorage → String → Option Response
  | [], _ => none
  | c :: rest, url =>
    match partitionMatch c.2 url with
    | some r => some r
    | none => cachesMatch rest url

/-- The partition stored under a name (empty if the name is absent). -/
def partitionOf : CacheStorage → String → Partition
  | [], _ => []
  | c :: rest, name => if c.1 == name then c.2 else partitionOf rest name

/-- `cache.match(url)` for the partition registered under `name`. -/
def namedMatch (s : CacheStorage) (name url : String) : Option Response :=
  partitionMatch (partitionOf s name) url

/-- `Cache.put`: replace any entry for the key by the new response. -/
def putInPartition (p : Partition) (url : String) (r : Response) : Partition :=
  (url, r) :: p.filter (fun e => !(e.1 == url))

/-- `caches.open(name)` followed by `cache.put(url, r)`: creates the
partition at the end of the storage if absent, then stores the response. -/
def cachePut (s : CacheStorage) (name url : String) (r : Response) : CacheStorage :=
  match s with
  | [] => [(name, [(url, r)])]
  | c :: rest =>
    if c.1 == name then (c.1, putInPartition c.2 url r) :: rest
    else c :: cachePut rest name url r

/-- The list of existing partition names (`caches.keys()`). -/
def cacheNames (s : CacheStorage) : List String := s.map Prod.fst

/-- Deletion test of the first activate cleanup pass (sw.js lines 144-150):
delete every name that is none of the three current names and does not
start with `workbox-`. -/
def firstPassDeletes (n : String) : Bool :=
  !(n == CACHE_NAME) && !(n == IMAGE_CACHE) && !(n == OFFLINE_CACHE) &&
    !(strStarts n "workbox-")

/-- Deletion test of the second activate cleanup pass (sw.js lines 164-168):
delete every name that is none of the three current names. -/
def secondPassDeletes (n : String) : Bool :=
  !(n == CACHE_NAME) && !(n == IMAGE_CACHE) && !(n == OFFLINE_CACHE)

/-- Effect of the first cleanup pass on the storage. -/
def activateFirstPass (s : CacheStorage) : CacheStorage :=
  s.filter (fun c => !(firstPassDeletes c.1))

/-- Effect of the second cleanup pass on the storage. -/
def activateSecondPass (s : CacheStorage) : CacheStorage :=
  s.filter (fun c => !(secondPassDeletes c.1))

/-- The activate handler (sw.js lines 139-176): first pass, then second
pass over the remaining names. -/
def activateHandler (s : CacheStorage) : CacheStorage :=
  activateSecondPass (activateFirstPass s)

/-- Outcome of a fetch promise: it rejects (network error), or resolves —
possibly with a missing value, which the code guards with `!response`. -/
inductive FetchResult where
  | failure : FetchResult
  | success : Option Response → FetchResult
deriving DecidableEq

/-- A network fetch together with the time at which it settles, used by the
paths that race the fetch against a timer. -/
structure NetOutcome where
  result : FetchResult
  settleTime : Nat
deriving DecidableEq

/-- Default timeout of `fetchWithTimeout` (sw.js line 263): 5000 ms. -/
def defaultTimeout : Nat := 5000

/-- `fetchWithTimeout` (sw.js lines 263-270): `Promise.race` of the fetch
and a timer that rejects after `timeout` ms.  The fetch wins exactly when
it settles strictly before the timer fires; otherwise the race rejects. -/
def fetchWithTimeout (net : NetOutcome) (timeout : Nat) : FetchResult :=
  if net.settleTime < timeout then net.result else .failure

/-- The request fields the fetch listener reads. -/
structure Request where
  method : String
  url : String
  accept : Option String
  cacheMode : String
  mode : String
deriving DecidableEq

/-- The pass-through filter (sw.js lines 184-189): skip non-GET requests,
browser-extension schemes, browser-sync tooling, and cache-only requests
outside same-origin mode. -/
def skipRequest (r : Request) : Bool :=
  !(r.method == "GET") || strStarts r.url "chrome-extension:" ||
    strIncludes r.url "browser-sync" ||
    (r.cacheMode == "only-if-cached" && !(r.mode == "same-origin"))

/-- Extensions of the image suffix regex (sw.js line 209), matched
case-insensitively because of its `i` flag. -/
def imageExts : List String := ["png", "jpg", "jpeg", "gif", "svg", "webp"]

/-- Extensions of the static-asset suffix regex (sw.js line 225), matched
case-sensitively (the regex carries no flag). -/
def staticExts : List String := ["js", "css", "woff", "woff2", "ttf", "eot"]

/-- `request.url.match(/\.(png|jpg|jpeg|gif|svg|webp)$/i)`: the URL,
case-folded, ends in a dot followed by an image extension. -/
def isImageUrl (url : String) : Bool :=
  imageExts.any (fun e => listEndsWith (url.data.map toLowerChar) (String.data ("." ++ e)))

/-- `request.url.match(/\.(js|css|woff2?|ttf|eot)$/)`: the URL ends in a dot
followed by a static-asset extension, with no case folding. -/
def isStaticUrl (url : String) : Bool :=
  staticExts.any (fun e => listEndsWith url.data (String.data ("." ++ e)))

/-- `accept.includes('text/html')`. -/
def acceptsHtml (accept : String) : Bool := strIncludes accept "text/html"

/-- The four strategy buckets of the fetch listener. -/
inductive Bucket where
  | html : Bucket
  | image : Bucket
  | staticAsset : Bucket
  | defaultBucket : Bucket
deriving DecidableEq

/-- Classification order of the fetch listener (sw.js lines 192, 209, 225,
241): HTML accept first, then image suffix, then static suffix, else the
default bucket. -/
def classify (accept url : String) : Bucket :=
  if acceptsHtml accept then .html
  else if isImageUrl url then .image
  else if isStaticUrl url then .staticAsset
  else .defaultBucket

/-- What the fetch listener does before running a strategy: pass the request
through, throw a TypeError (reading `.includes` on a `null` Accept header),
or respond with the strategy of a bucket. -/
inductive DispatchResult where
  | passThrough : DispatchResult
  | throwTypeError : DispatchResult
  | respond : Bucket → DispatchResult
deriving DecidableEq

/-- Entry of the fetch listener (sw.js lines 179-192): the pass-through
filter, then `request.headers.get('accept').includes('text/html')` — which
throws when the header is absent — then the suffix classification. -/
def fetchDispatch (r : Request) : DispatchResult :=
  if skipRequest r then .passThrough
  else
    match r.accept with
    | none => .throwTypeError
    | some a => .respond (classify a r.url)

/-- Result of running one strategy: the settled value handed to
`respondWith` (a rejected promise is `FetchResult.failure`, a promise
resolved with no value is `success none`), the cache storage after the
strategy's writes, and the partition targeted by a background refresh when
one was started. -/
structure BranchResult where
  outcome : FetchResult
  state : CacheStorage
  bgRefresh : Option String
deriving DecidableEq

/-- `fetchAndCache` (sw.js lines 273-294): fetch; a missing response, a
status other than 200 or a type other than `basic` is returned uncached;
otherwise the clone is put into the named partition; a rejected fetch is
logged and rethrown. -/
def fetchAndCache (s : CacheStorage) (cacheName url : String) (net : FetchResult) :
    FetchResult × CacheStorage :=
  match net with
  | .failure => (.failure, s)
  | .success none => (.success none, s)
  | .success (some r) =>
    if r.status == 200 && r.rtype == "basic" then
      (.success (some r), cachePut s cacheName url r)
    else
      (.success (some r), s)

/-- The fallback chain of the HTML branch (sw.js lines 203-207):
`caches.match(request)` over every partition, else
`caches.match(OFFLINE_URL)`. -/
def htmlFallback (s : CacheStorage) (url : String) : Option Response :=
  match cachesMatch s url with
  | some r => some r
  | none => cachesMatch s OFFLINE_URL

/-- The HTML branch (sw.js lines 192-208): `fetchWithTimeout(request, 3000)`;
on a resolved response, put the clone into the primary partition —
unconditionally — and return it; on rejection (network failure or the
timer), run the fallback chain.  A resolved-but-missing value would throw
inside the `then` callback at `response.clone()` and is caught by the same
`catch`, so it also runs the fallback chain. -/
def htmlBranch (s : CacheStorage) (url : String) (net : NetOutcome) : BranchResult :=
  match fetchWithTimeout net 3000 with
  | .success (some r) => ⟨.success (some r), cachePut s CACHE_NAME url r, none⟩
  | .success none => ⟨.success (htmlFallback s url), s, none⟩
  | .failure => ⟨.success (htmlFallback s url), s, none⟩

/-- The shared cache-first strategy of the image branch (sw.js lines
209-224) and the static-asset branch (sw.js lines 225-240):
`caches.match(request)`; on a hit, start a background `fetchAndCache` into
the named partition (its settled value is discarded) and return the cached
response; on a miss, respond with `fetchAndCache` itself. -/
def cacheFirstBranch (s : CacheStorage) (cacheName url : String)
    (bgNet net : FetchResult) : BranchResult :=
  match cachesMatch s url with
  | some cached =>
    ⟨.success (some cached), (fetchAndCache s cacheName url bgNet).2, some cacheName⟩
  | none =>
    let fc := fetchAndCache s cacheName url net
    ⟨fc.1, fc.2, none⟩

/-- The image branch targets `IMAGE_CACHE`. -/
def imageBranch (s : CacheStorage) (url : String) (bgNet net : FetchResult) : BranchResult :=
  cacheFirstBranch s IMAGE_CACHE url bgNet net

/-- The static-asset branch targets `CACHE_NAME`. -/
def staticAssetBranch (s : CacheStorage) (url : String) (bgNet net : FetchResult) : BranchResult :=
  cacheFirstBranch s CACHE_NAME url bgNet net

/-- The default branch (sw.js lines 241-258): `fetchWithTimeout(request)`
with its default 5000 ms timeout; a resolved response is cached into the
primary partition when its status is 200 and its type is `basic`, and
returned either way; on rejection, respond with `caches.match(request)`
(possibly resolving with no value). -/
def defaultBranch (s : CacheStorage) (url : String) (net : NetOutcome) : BranchResult :=
  match fetchWithTimeout net defaultTimeout with
  | .success (some r) =>
    if r.status == 200 && r.rtype == "basic" then
      ⟨.success (some r), cachePut s CACHE_NAME url r, none⟩
    else
      ⟨.success (some r), s, none⟩
  | .success none => ⟨.success none, s, none⟩
  | .failure => ⟨.success (cachesMatch s url), s, none⟩

/-- Overall outcome of the fetch listener for one request. -/
inductive HandlerOutcome where
  | passedThrough : HandlerOutcome
  | thrown : HandlerOutcome
  | responded : BranchResult → HandlerOutcome
deriving DecidableEq

/-- The fetch listener end to end: dispatch, then the selected strategy.
`net` is the (timed) outcome of the request's own network fetch and `bgNet`
the outcome of a background refresh fetch, when one happens. -/
def handleFetch (s : CacheStorage) (r : Request) (net : NetOutcome)
    (bgNet : FetchResult) : HandlerOutcome :=
  match fetchDispatch r with
  | .passThrough => .passedThrough
  | .throwTypeError => .thrown
  | .respond .html => .responded (htmlBranch s r.url net)
  | .respond .image => .responded (imageBranch s r.url bgNet net.result)
  | .respond .staticAsset => .responded (staticAssetBranch s r.url bgNet net.result)
  | .respond .defaultBucket => .responded (defaultBranch s r.url net)

/-- The per-asset fetch chain of the install listener (sw.js lines 57-72),
before its `catch`: a rejected fetch propagates; a missing response or a
status other than exactly 200 rejects with `Failed to fetch`; otherwise the
response is put into the image partition when the URL has an image suffix,
else into the primary partition. -/
def installFetchChain (s : CacheStorage) (url : String) (net : FetchResult) :
    Except String CacheStorage :=
  match net with
  | .failure => .error "network error"
  | .success none => .error ("Failed to fetch: " ++ url)
  | .success (some r) =>
    if !(r.status == 200) then .error ("Failed to fetch: " ++ url)
    else if isImageUrl url then .ok (cachePut s IMAGE_CACHE url r)
    else .ok (cachePut s CACHE_NAME url r)

/-- One manifest asset during install (sw.js lines 54-79): if
`caches.match(asset.url)` hits, keep the cached response and do nothing;
otherwise run the fetch chain, whose rejection is caught by the per-asset
`catch`, which logs a warning and resolves — so the per-asset promise
always resolves.  Returns the storage afterwards and whether the warning
was logged. -/
def installAsset (s : CacheStorage) (url : String) (net : FetchResult) :
    CacheStorage × Bool :=
  match cachesMatch s url with
  | some _ => (s, false)
  | none =>
    match installFetchChain s url net with
    | .ok s2 => (s2, false)
    | .error _ => (s, true)

/-- Fixed responses used as concrete instances below. -/
def okResp : Response := ⟨200, "basic", "fresh"⟩

def imgResp : Response := ⟨200, "basic", "cached-image"⟩

def offlineResp : Response := ⟨200, "basic", "offline-page"⟩

def notFoundResp : Response := ⟨404, "basic", "not found"⟩

/-- A resolved response whose type is the opaque same-origin flavour named
by the caching condition of the spec. -/
def nonBasicResp : Response := ⟨200, "opaque-same-origin", "img-bytes"⟩

/-- A storage for the HTML-branch scenarios: the primary partition is
empty, the image partition holds an entry for `/pic`, and the offline
partition holds the Offline Document. -/
def htmlState : CacheStorage :=
  [(CACHE_NAME, []), (IMAGE_CACHE, [("/pic", imgResp)]),
    (OFFLINE_CACHE, [(OFFLINE_URL, offlineResp)])]

/-- The fall-back rule of claim C4, restated from the spec's words: the
primary-partition match when one exists, else the Offline Document stored
under the fixed offline key. -/
def specHtmlFallback (s : CacheStorage) (url : String) : Option Response :=
  match namedMatch s CACHE_NAME url with
  | some r => some r
  | none => namedMatch s OFFLINE_CACHE OFFLINE_URL

/-- A one-partition storage holding a cached profile image. -/
def imageState : CacheStorage := [(IMAGE_CACHE, [("/images/profile.png", imgResp)])]

/-- The caching condition of claim C6, restated from the spec's words:
status 200 and type `basic` or `opaque-same-origin`. -/
def specImageCacheCond (r : Response) : Bool :=
  r.status == 200 && (r.rtype == "basic" || r.rtype == "opaque-same-origin")

/-- A GET request with no Accept header that the pass-through filter does
not skip. -/
def noAcceptReq : Request := ⟨"GET", "https://s.example/api/data", none, "default", "cors"⟩

/-- After `cachePut`, matching the same key in the same partition returns
the stored response. -/
theorem namedMatch_cachePut_self (s : CacheStorage) (name url : String) (r : Response) :
    namedMatch (cachePut s name url r) name url = some r := by
  induction s with
  | nil => simp [cachePut, namedMatch, partitionOf, partitionMatch, putInPartition]
  | cons c rest ih =>
    cases h : c.1 == name with
    | true =>
      simp [cachePut, h, namedMatch, partitionOf, partitionMatch, putInPartition]
    | false =>
      simp only [cachePut, h, Bool.false_eq_true, if_false]
      simpa [namedMatch, partitionOf, h] using ih

/-- A key missed by the global `caches.match` is missed by every named
partition as well. -/
theorem namedMatch_eq_none_of_global_none (s : CacheStorage) (url name : String)
    (h : cachesMatch s url = none) : namedMatch s name url = none := by
  induction s with
  | nil => simp [namedMatch, partitionOf, partitionMatch]
  | cons c rest ih =>
    unfold cachesMatch at h
    cases hp : partitionMatch c.2 url with
    | some r => rw [hp] at h; simp at h
    | none =>
      rw [hp] at h
      unfold namedMatch partitionOf
      cases hc : c.1 == name with
      | true => simpa [hc] using hp
      | false => simpa [hc, namedMatch] using ih h

/-- A name survives the second cleanup pass exactly when it is one of the
three current partition names. -/
theorem secondPass_keep_iff (n : String) :
    (!(secondPassDeletes n)) = true ↔ n ∈ threeNames := by
  unfold secondPassDeletes threeNames
  by_cases h1 : n = CACHE_NAME
  · subst h1; simp
  · by_cases h2 : n = IMAGE_CACHE
    · subst h2; simp
    · by_cases h3 : n = OFFLINE_CACHE
      · subst h3; simp
      · simp [h1, h2, h3]

/-- Each of the three current partition names survives the first cleanup
pass. -/
theorem firstPass_keep_of_three (n : String) (h : n ∈ threeNames) :
    (!(firstPassDeletes n)) = true := by
  simp only [threeNames, List.mem_cons, List.not_mem_nil, or_false] at h
  rcases h with rfl | rfl | rfl <;> decide

/-- C1 counterexample: activate only deletes; it never creates the three
partitions.  Starting from a storage that holds none of them, the set of
surviving partition names is empty, not the three-name set the claim
demands for every starting state. -/
theorem activate_missing_partition_not_created :
    activateHandler [("old-portfolio-v1", [])] = ([] : CacheStorage)
    ∧ ¬(CACHE_NAME ∈ cacheNames (activateHandler [("old-portfolio-v1", [])])) := by
  decide

/-- C1 (amended): after the activate handler completes, a partition name
exists exactly when it existed before and is one of the three current
names — every other partition, whatever its name (workbox-prefixed
included), has been deleted and none of the three is deleted.  When all
three existed beforehand, the surviving set is therefore exactly the three
names. -/
theorem activate_partition_mem_iff (s : CacheStorage) (n : String) :
    n ∈ cacheNames (activateHandler s) ↔ n ∈ cacheNames s ∧ n ∈ threeNames := by
  unfold activateHandler activateSecondPass activateFirstPass cacheNames
  constructor
  · intro h
    rcases List.mem_map.mp h with ⟨c, hc, rfl⟩
    rcases List.mem_filter.mp hc with ⟨hc1, h2⟩
    rcases List.mem_filter.mp hc1 with ⟨hcs, _h1⟩
    exact ⟨List.mem_map.mpr ⟨c, hcs, rfl⟩, (secondPass_keep_iff c.1).mp h2⟩
  · rintro ⟨hmem, hthree⟩
    rcases List.mem_map.mp hmem with ⟨c, hc, rfl⟩
    exact List.mem_map.mpr ⟨c, List.mem_filter.mpr
      ⟨List.mem_filter.mpr ⟨hc, firstPass_keep_of_three c.1 hthree⟩,
        (secondPass_keep_iff c.1).mpr hthree⟩, rfl⟩

/-- C2 counterexample: in the default bucket the fetch is raced against
`fetchWithTimeout`'s default 5000 ms timer.  A network fetch that resolves
successfully at 6000 ms loses the race: the handler falls back to the
cached match (here: no value) instead of waiting for and returning the
successful network response, so a timer — not only a genuine network
failure — triggers the fallback. -/
theorem defaultBranch_timeout_discards_success :
    (defaultBranch [] "/data.json" ⟨.success (some okResp), 6000⟩).outcome
      = FetchResult.success none
    ∧ FetchResult.success none ≠ FetchResult.success (some okResp) := by
  decide

/-- C2 (amended): the default bucket performs its network fetch through
`fetchWithTimeout` with the default 5000 ms timeout; a fetch that has not
settled within 5 seconds is treated exactly like a network failure and
triggers the fall-back to the cached match, while a fetch that settles
successfully within 5 seconds is returned (and cached when its status is
200 and its type is `basic`). -/
theorem defaultBranch_uses_five_second_timeout (s : CacheStorage) (url : String)
    (net : NetOutcome) :
    (defaultTimeout ≤ net.settleTime →
      defaultBranch s url net = ⟨.success (cachesMatch s url), s, none⟩)
    ∧ (net.result = .failure →
      defaultBranch s url net = ⟨.success (cachesMatch s url), s, none⟩)
    ∧ (∀ r, net.settleTime < defaultTimeout → net.result = .success (some r) →
      (defaultBranch s url net).outcome = .success (some r)) := by
  refine ⟨?_, ?_, ?_⟩
  · intro h
    unfold defaultBranch fetchWithTimeout
    rw [if_neg (by omega)]
  · intro h
    unfold defaultBranch fetchWithTimeout
    by_cases hlt : net.settleTime < defaultTimeout
    · rw [if_pos hlt, h]
    · rw [if_neg hlt]
  · intro r hlt hr
    unfold defaultBranch fetchWithTimeout
    rw [if_pos hlt, hr]
    cases hc : r.status == 200 && r.rtype == "basic" <;> simp [hc]

/-- C2 witness: the amended theorem applied to the discarded 6000 ms
success. -/
theorem defaultBranch_timeout_witness :
    defaultBranch [] "/data.json" ⟨FetchResult.success (some okResp), 6000⟩
      = ⟨FetchResult.success none, [], none⟩ :=
  (defaultBranch_uses_five_second_timeout [] "/data.json"
    ⟨FetchResult.success (some okResp), 6000⟩).1 (by decide)

/-- C3 counterexample: a `workbox-` partition name is spared by the first
cleanup pass but deleted by the second, so the two passes do not apply the
same deletion rule and the second pass deletes a partition the first
protects. -/
theorem workbox_spared_then_deleted :
    firstPassDeletes "workbox-precache-v2" = false
    ∧ secondPassDeletes "workbox-precache-v2" = true
    ∧ activateFirstPass [("workbox-precache-v2", [])] = [("workbox-precache-v2", [])]
    ∧ activateSecondPass [("workbox-precache-v2", [])] = ([] : CacheStorage) := by
  decide

/-- C3 (amended): the second pass's deletion rule is a superset of the
first pass's — everything the first pass deletes, the second deletes too —
but it is strictly wider: it also deletes every name with the reserved
`workbox-` prefix that the first pass spares, as witnessed by
`workbox-precache-v2`. -/
theorem secondPass_superset_of_firstPass :
    (∀ n, firstPassDeletes n = true → secondPassDeletes n = true)
    ∧ firstPassDeletes "workbox-precache-v2" = false
    ∧ secondPassDeletes "workbox-precache-v2" = true := by
  refine ⟨?_, by decide, by decide⟩
  intro n h
  unfold firstPassDeletes at h
  unfold secondPassDeletes
  simp only [Bool.and_eq_true] at h ⊢
  exact h.1

/-- C3 witness: applying the superset direction to a stale versioned name
that both passes delete. -/
theorem secondPass_superset_witness : secondPassDeletes "portfolio-v1.0.0" = true :=
  secondPass_superset_of_firstPass.1 "portfolio-v1.0.0" (by decide)

/-- C4 counterexample: the HTML branch's fallback is the global
`caches.match`, which searches every partition, not only the primary one.
For a request whose key is cached in the image partition but absent from
the primary partition, a failed network fetch makes the handler return the
image-partition entry, while the claim's rule requires the Offline
Document. -/
theorem htmlFallback_returns_nonprimary_match :
    (htmlBranch htmlState "/pic" ⟨FetchResult.failure, 0⟩).outcome
      = FetchResult.success (some imgResp)
    ∧ namedMatch htmlState CACHE_NAME "/pic" = none
    ∧ specHtmlFallback htmlState "/pic" = some offlineResp
    ∧ imgResp ≠ offlineResp := by
  decide

/-- C4 (amended): for an HTML-accepting request whose network fetch fails
or exceeds the 3-second timeout, the handler returns the first match for
the request's key across all partitions in storage order (the
primary-partition match whenever the primary partition is the one holding
the key); only when no partition at all holds the key does it return the
result of matching the fixed offline key — the Offline Document as stored
by install. -/
theorem htmlFallback_global_match_then_offline (s : CacheStorage) (url : String)
    (net : NetOutcome) (hfail : net.result = .failure ∨ 3000 ≤ net.settleTime) :
    (∀ r, cachesMatch s url = some r →
      (htmlBranch s url net).outcome = .success (some r))
    ∧ (cachesMatch s url = none →
      (htmlBranch s url net).outcome = .success (cachesMatch s OFFLINE_URL)) := by
  have hft : fetchWithTimeout net 3000 = .failure := by
    unfold fetchWithTimeout
    rcases hfail with h | h
    · by_cases hlt : net.settleTime < 3000
      · rw [if_pos hlt, h]
      · rw [if_neg hlt]
    · rw [if_neg (by omega)]
  constructor
  · intro r hr
    unfold htmlBranch
    rw [hft]
    simp [htmlFallback, hr]
  · intro hnone
    unfold htmlBranch
    rw [hft]
    simp [htmlFallback, hnone]

/-- C4 witness: a failed fetch with a completely uncached key falls back to
the Offline Document. -/
theorem htmlFallback_witness :
    (htmlBranch htmlState "/nowhere" ⟨FetchResult.failure, 0⟩).outcome
      = FetchResult.success (cachesMatch htmlState OFFLINE_URL) :=
  (htmlFallback_global_match_then_offline htmlState "/nowhere" ⟨FetchResult.failure, 0⟩
    (Or.inl rfl)).2 (by decide)

/-- C5: for an image request with a cached entry, the handler responds with
that cached entry — whatever the background network fetch would return —
and a background refresh targeting the image partition is triggered. -/
theorem imageBranch_cached_returns_cached (s : CacheStorage) (url : String)
    (cached : Response) (bgNet net : FetchResult)
    (h : cachesMatch s url = some cached) :
    (imageBranch s url bgNet net).outcome = .success (some cached)
    ∧ (imageBranch s url bgNet net).bgRefresh = some IMAGE_CACHE := by
  unfold imageBranch cacheFirstBranch
  rw [h]
  exact ⟨rfl, rfl⟩

/-- C5 witness: the cached image is returned even though the (background)
network fetch would deliver a different fresh response. -/
theorem imageBranch_cached_witness :
    (imageBranch imageState "/images/profile.png"
        (FetchResult.success (some okResp)) (FetchResult.success (some okResp))).outcome
      = FetchResult.success (some imgResp)
    ∧ (imageBranch imageState "/images/profile.png"
        (FetchResult.success (some okResp)) (FetchResult.success (some okResp))).bgRefresh
      = some IMAGE_CACHE :=
  imageBranch_cached_returns_cached imageState "/images/profile.png" imgResp
    (FetchResult.success (some okResp)) (FetchResult.success (some okResp)) (by decide)

/-- C6 counterexample: a status-200 response of opaque-same-origin type
satisfies the claim's caching condition, and the handler returns it, but
`fetchAndCache` only stores responses whose type is exactly `basic`: the
storage is left untouched, so the response is not written into the image
partition as the claim requires. -/
theorem imageBranch_opaque_not_cached :
    specImageCacheCond nonBasicResp = true
    ∧ (imageBranch [] "/photo.png" FetchResult.failure
        (FetchResult.success (some nonBasicResp))).outcome
      = FetchResult.success (some nonBasicResp)
    ∧ (imageBranch [] "/photo.png" FetchResult.failure
        (FetchResult.success (some nonBasicResp))).state = ([] : CacheStorage) := by
  decide

/-- C6 (amended): for an image request with no cached entry whose network
fetch resolves with a response, the handler returns that response, and
writes it into the image partition exactly when its status is 200 and its
type is exactly `basic`; a response failing that condition — opaque types
included — is returned but not cached, leaving the storage unchanged. -/
theorem imageBranch_uncached_caches_iff_basic200 (s : CacheStorage) (url : String)
    (bgNet : FetchResult) (r : Response) (h : cachesMatch s url = none) :
    (imageBranch s url bgNet (.success (some r))).outcome = .success (some r)
    ∧ ((r.status == 200 && r.rtype == "basic") = true →
        namedMatch (imageBranch s url bgNet (.success (some r))).state IMAGE_CACHE url
          = some r)
    ∧ ((r.status == 200 && r.rtype == "basic") = false →
        (imageBranch s url bgNet (.success (some r))).state = s) := by
  unfold imageBranch cacheFirstBranch fetchAndCache
  rw [h]
  refine ⟨?_, ?_, ?_⟩
  · cases hc : r.status == 200 && r.rtype == "basic" <;> simp [hc]
  · intro hc
    simp [hc, namedMatch_cachePut_self]
  · intro hc
    simp [hc]

/-- C6 witness: a basic 200 image response is cached under its key in the
image partition. -/
theorem imageBranch_uncached_witness :
    namedMatch (imageBranch [] "/photo.png" FetchResult.failure
        (FetchResult.success (some imgResp))).state IMAGE_CACHE "/photo.png"
      = some imgResp :=
  ((imageBranch_uncached_caches_iff_basic200 [] "/photo.png" FetchResult.failure imgResp
    rfl).2).1 (by decide)

/-- C7: a manifest asset whose install-time fetch rejects, resolves with a
missing response, or resolves with any status other than exactly 200 is
stored in neither partition — the storage is returned unchanged — the
per-asset warning is logged, and the per-asset operation still resolves
(the error is swallowed by the per-asset catch), so install completes. -/
theorem installAsset_bad_fetch_swallowed (s : CacheStorage) (url : String)
    (net : FetchResult) (hAbsent : cachesMatch s url = none)
    (hBad : net = .failure ∨ net = .success none ∨
      ∃ r, net = .success (some r) ∧ r.status ≠ 200) :
    installAsset s url net = (s, true) := by
  unfold installAsset
  rw [hAbsent]
  rcases hBad with rfl | rfl | ⟨r, rfl, hr⟩
  · rfl
  · rfl
  · have hst : (r.status == 200) = false := by
      simpa using hr
    simp [installFetchChain, hst]

/-- C7 witness: a 404 on `/style.css` leaves the empty storage empty,
logs the warning, and the install step returns normally. -/
theorem installAsset_bad_fetch_witness :
    installAsset [] "/style.css" (FetchResult.success (some notFoundResp)) = ([], true) :=
  installAsset_bad_fetch_swallowed [] "/style.css"
    (FetchResult.success (some notFoundResp)) rfl
    (Or.inr (Or.inr ⟨notFoundResp, rfl, by decide⟩))

/-- C8: for an HTML-accepting request whose network fetch resolves with a
response within the 3-second timeout, the handler returns that response
and writes it into the primary partition under the request's key with no
condition on its status or type — the quantified response covers a 404 or
500 document as much as a 200 — so it can later be served from cache as
the fallback. -/
theorem htmlBranch_caches_any_status (s : CacheStorage) (url : String)
    (net : NetOutcome) (r : Response) (ht : net.settleTime < 3000)
    (hr : net.result = .success (some r)) :
    (htmlBranch s url net).outcome = .success (some r)
    ∧ (htmlBranch s url net).state = cachePut s CACHE_NAME url r
    ∧ namedMatch (htmlBranch s url net).state CACHE_NAME url = some r := by
  have hft : fetchWithTimeout net 3000 = .success (some r) := by
    unfold fetchWithTimeout
    rw [if_pos ht, hr]
  unfold htmlBranch
  rw [hft]
  exact ⟨rfl, rfl, namedMatch_cachePut_self s CACHE_NAME url r⟩

/-- C8 witness: a 404 document settling at 100 ms is cached in the primary
partition exactly like a 200 would be. -/
theorem htmlBranch_caches_404_witness :
    namedMatch (htmlBranch [] "/missing"
        ⟨FetchResult.success (some notFoundResp), 100⟩).state CACHE_NAME "/missing"
      = some notFoundResp :=
  (htmlBranch_caches_any_status [] "/missing"
    ⟨FetchResult.success (some notFoundResp), 100⟩ notFoundResp (by decide) rfl).2.2

/-- C9: a GET request that passes the pass-through filter but carries no
Accept header makes the fetch listener throw while reading
`.includes` on the `null` header value, before any classification: the
outcome is `thrown`, so no caching strategy runs and `respondWith` is
never called. -/
theorem missing_accept_throws (s : CacheStorage) (r : Request) (net : NetOutcome)
    (bgNet : FetchResult) (hskip : skipRequest r = false) (hacc : r.accept = none) :
    handleFetch s r net bgNet = .thrown
    ∧ fetchDispatch r = .throwTypeError := by
  have hd : fetchDispatch r = .throwTypeError := by
    simp [fetchDispatch, hskip, hacc]
  exact ⟨by simp [handleFetch, hd], hd⟩

/-- C9 witness: the listener throws on the concrete header-less request. -/
theorem missing_accept_throws_witness :
    handleFetch [] noAcceptReq ⟨FetchResult.failure, 0⟩ FetchResult.failure
      = HandlerOutcome.thrown
    ∧ fetchDispatch noAcceptReq = DispatchResult.throwTypeError :=
  missing_accept_throws [] noAcceptReq ⟨FetchResult.failure, 0⟩ FetchResult.failure
    (by decide) rfl

/-- C10: the static-asset suffix regex carries no case-insensitivity flag
while the image regex does: GET requests for `.JS`, `.CSS` and `.WOFF2`
URLs are not classified as static assets and land in the default
network-first bucket, whereas a `.PNG` URL is still classified as an image
(and a lower-case `.js` URL is classified as a static asset). -/
theorem suffix_case_sensitivity :
    isStaticUrl "https://s.example/app.JS" = false
    ∧ isStaticUrl "https://s.example/theme.CSS" = false
    ∧ isStaticUrl "https://s.example/font.WOFF2" = false
    ∧ isImageUrl "https://s.example/logo.PNG" = true
    ∧ fetchDispatch ⟨"GET", "https://s.example/app.JS", some "*/*", "default", "cors"⟩
        = .respond .defaultBucket
    ∧ fetchDispatch ⟨"GET", "https://s.example/theme.CSS", some "*/*", "default", "cors"⟩
        = .respond .defaultBucket
    ∧ fetchDispatch ⟨"GET", "https://s.example/font.WOFF2", some "*/*", "default", "cors"⟩
        = .respond .defaultBucket
    ∧ fetchDispatch ⟨"GET", "https://s.example/logo.PNG", some "*/*", "default", "cors"⟩
        = .respond .image
    ∧ fetchDispatch ⟨"GET", "https://s.example/app.js", some "*/*", "default", "cors"⟩
        = .respond .staticAsset := by
  decide





